import Mathlib

/-!
Verification of the core of `ti_propulsion_power_planner.py`:
the dominance/obsolescence engine, the drive + power-plant combination
builder, and the mission feasibility solver.

Modelling conventions:
* Python floats are modelled by exact rationals (`ℚ`) wherever the code only
  does field arithmetic and comparisons; the two places the code calls
  `math.exp` / `math.log` are modelled over `ℝ` with `Real.exp` / `Real.log`.
* Python strings are Lean `String`s; the code only manipulates ASCII class
  tags, so `Char.toLower` models `str.lower`.
* pandas rows become flat structures holding exactly the columns the core
  reads; `row.get(col, default)` on an always-present column is a plain
  field access.
-/

namespace TIPlanner

/-! ## String helpers (models of Python `str` operations) -/

/-- Model of Python whitespace for `str.strip()` (ASCII subset). -/
def isPySpace (c : Char) : Bool :=
  c = ' ' || c = '\t' || c = '\n' || c = '\r' || c = '\x0b' || c = '\x0c'

/-- Model of Python `str.strip()`. -/
def pyStrip (s : List Char) : List Char :=
  (s.dropWhile isPySpace).reverse.dropWhile isPySpace |>.reverse

/-- Does `l` start with `p`? (model of Python `str.startswith`). -/
def startsWithL : List Char → List Char → Bool
  | _, [] => true
  | [], _ :: _ => false
  | a :: as, b :: bs => a = b && startsWithL as bs

/-- Does `hay` contain `needle` as a contiguous substring?
(model of Python `needle in hay`; an empty needle is contained in anything). -/
def containsSub : List Char → List Char → Bool
  | [], needle => needle.isEmpty
  | c :: rest, needle => startsWithL (c :: rest) needle || containsSub rest needle

/-- Collapse runs of underscores to a single underscore
(model of `re.sub(r"_+", "_", s)`). -/
def squeezeUnderscores : List Char → List Char
  | [] => []
  | [c] => [c]
  | a :: b :: rest =>
    if a = '_' && b = '_' then squeezeUnderscores (b :: rest)
    else a :: squeezeUnderscores (b :: rest)

/-- `_normalize_class_name`: strip, spaces to underscores, collapse
underscore runs, lowercase.  (The Python code also maps `None` to `""`;
we model string inputs only.) -/
def normalize_class_name (s : String) : String :=
  let t := pyStrip s.data
  let t := t.map (fun c => if c = ' ' then '_' else c)
  let t := squeezeUnderscores t
  String.mk (t.map Char.toLower)

/-! ## Record models -/

/-- A drive feature row, as produced by `build_drive_features` (plus the
`Obsolete` flag that `annotate_drive_obsolescence` attaches before the rows
reach `build_valid_drive_pp_combos`). -/
structure DriveFeat where
  name : String
  family : String
  thrust : ℚ
  thrust_cap : ℚ
  ev : ℚ
  eff : ℚ
  mass : ℚ
  power : ℚ
  propellant : String
  backup_mode : String
  idle_backup : Bool
  scarce : Bool
  req_pp : String
  exp_score : ℚ
  obsolete : Bool
  deriving DecidableEq, Inhabited

/-- A reactor (power plant) feature row, as produced by `build_pp_features`
(plus the `Obsolete` flag from `annotate_pp_obsolescence`). -/
structure PPFeat where
  name : String
  cls : String
  max_output : ℚ
  spec_power : ℚ
  eff : ℚ
  crew : ℚ
  general_use : Bool
  obsolete : Bool
  deriving DecidableEq, Inhabited

/-- `drive_compatible_with_pp`: may this drive be paired with this plant? -/
def drive_compatible_with_pp (d : DriveFeat) (p : PPFeat) : Bool :=
  let req := normalize_class_name d.req_pp
  let plant := normalize_class_name p.cls
  if req.data.isEmpty then true
  else if req = "any" || req = "any_general" || req = "any_reactor"
      || req = "any_power_plant" then true
  else if plant.data.isEmpty then false
  else if startsWithL req.data ('a' :: 'n' :: 'y' :: '_' :: []) then
    let needed := req.data.drop 4
    if needed.isEmpty then true
    else needed = plant.data || containsSub plant.data needed
  else req = plant || containsSub plant.data req.data

/-- The matching rule exactly as the specification (section 4.2) words it,
for comparison with the code's `drive_compatible_with_pp`: an empty or
"any reactor" tag matches everything; a tag of the form `any_<suffix>`
matches exactly the classes containing `<suffix>` as a substring; any other
tag matches iff it equals or is a substring of the class; an empty reactor
class never satisfies a non-empty requirement. -/
def spec_class_match (req_raw plant_raw : String) : Bool :=
  let req := normalize_class_name req_raw
  let plant := normalize_class_name plant_raw
  if req.data.isEmpty then true
  else if req = "any_reactor" then true
  else if plant.data.isEmpty then false
  else if startsWithL req.data ('a' :: 'n' :: 'y' :: '_' :: []) then
    containsSub plant.data (req.data.drop 4)
  else req = plant || containsSub plant.data req.data

/-- The matching rule the code actually implements, phrased like the spec's
rule: the code additionally short-circuits the normalized tags `"any"`,
`"any_general"`, `"any_reactor"` and `"any_power_plant"` to match everything
(even an empty reactor class), before the empty-class and `any_<suffix>`
checks. -/
def code_class_match (req_raw plant_raw : String) : Bool :=
  let req := normalize_class_name req_raw
  let plant := normalize_class_name plant_raw
  if req.data.isEmpty then true
  else if req = "any" || req = "any_general" || req = "any_reactor"
      || req = "any_power_plant" then true
  else if plant.data.isEmpty then false
  else if startsWithL req.data ('a' :: 'n' :: 'y' :: '_' :: []) then
    let needed := req.data.drop 4
    needed.isEmpty || needed = plant.data || containsSub plant.data needed
  else req = plant || containsSub plant.data req.data

/-! ## Feature building (`build_drive_features`) -/

/-- The seven propellant resources of `DRIVE_PROP_RESOURCE_COLS`, in the
iteration order of the Python dict. -/
inductive Resource where
  | water | volatiles | metals | nobleMetals | fissiles | antimatter | exotics
  deriving DecidableEq, Inhabited

/-- The dict iteration order. -/
def resourceOrder : List Resource :=
  [.water, .volatiles, .metals, .nobleMetals, .fissiles, .antimatter, .exotics]

/-- A raw (already loaded and coerced) drive catalog row, holding exactly
the columns `build_drive_features` reads.  `perTank` models the flattened
`perTankPropellantMaterials/<res>` columns. -/
structure DriveInput where
  display_name : String
  family : String
  thrust : ℚ
  ev : ℚ
  eff : ℚ
  mass : ℚ
  thrust_cap : ℚ
  propellant : String
  perTank : Resource → ℚ
  backup_raw : String
  req_pp_raw : String

/-- `compute_drive_power_gw`. -/
def compute_drive_power_gw (thrust_n ev_kps : ℚ) : ℚ :=
  thrust_n * ev_kps / 2000000

/-- `interpret_backup`. -/
def interpret_backup (raw : String) : String :=
  if raw = "Always" then "Always"
  else if raw = "DriveIdle" then "When Not Thrusting"
  else if raw = "DriveActive" then "When Thrusting"
  else "Never"

/-- `has_idle_backup`. -/
def has_idle_backup (raw : String) : Bool :=
  raw = "Always" || raw = "DriveIdle"

/-- `drive_uses_scarce`: some propellant resource has a positive amount and
is flagged non-abundant.  `abundance` models the Python
`abundance.get(res_key, True)` lookup (the caller-supplied map with default
`True`). -/
def drive_uses_scarce (row : DriveInput) (abundance : Resource → Bool) : Bool :=
  resourceOrder.any (fun r => decide (0 < row.perTank r) && !abundance r)

/-- `PROP_TRANSLATION.get(prop_enum, prop_enum or "Unknown")`. -/
def prop_translation (prop_enum : String) : String :=
  if prop_enum = "ReactionProducts" then "Reaction Products"
  else if prop_enum = "Anything" then "Anything"
  else if prop_enum = "Hydrogen" then "Hydrogen"
  else if prop_enum = "Water" then "Water"
  else if prop_enum = "NobleGases" then "Noble Gases"
  else if prop_enum = "Volatiles" then "Volatiles"
  else if prop_enum = "Metals" then "Metals"
  else if prop_enum.data.isEmpty then "Unknown" else prop_enum

/-- The `exp_score` accumulation of `build_drive_features`: for each
resource with a positive per-tank amount, if the caller supplied a fuel
weight for it, add `weight * display_mass` where `display_mass` is the raw
amount scaled by 10 for display. -/
def expensive_fuel_score (row : DriveInput) (fuel_weights : Resource → Option ℚ) : ℚ :=
  resourceOrder.foldl
    (fun acc r =>
      if 0 < row.perTank r then
        match fuel_weights r with
        | some w => acc + w * (row.perTank r * 10)
        | none => acc
      else acc) 0

/-- One row of `build_drive_features` (the Python function maps this over
the catalog dataframe).  The `Obsolete` flag is attached later by
`annotate_drive_obsolescence`; it starts out false here. -/
def build_drive_features (row : DriveInput) (abundance : Resource → Bool)
    (fuel_weights : Resource → Option ℚ) : DriveFeat :=
  let stripped := pyStrip row.backup_raw.data
  let req_stripped := pyStrip row.req_pp_raw.data
  { name := row.display_name
    family := row.family
    thrust := row.thrust
    thrust_cap := row.thrust_cap
    ev := row.ev
    eff := row.eff
    mass := row.mass
    power := compute_drive_power_gw row.thrust row.ev
    propellant := prop_translation (String.mk (pyStrip row.propellant.data))
    backup_mode := interpret_backup (String.mk stripped)
    idle_backup := has_idle_backup (String.mk stripped)
    scarce := drive_uses_scarce row abundance
    req_pp := if req_stripped.isEmpty then "Any Reactor" else String.mk req_stripped
    exp_score := expensive_fuel_score row fuel_weights
    obsolete := false }

/-- The expensive-fuel score exactly as the specification words it:
Σ (caller-supplied resource weight × per-tank mass fraction) over the
resources with positive mass fraction (a resource without a caller-supplied
weight contributes nothing). -/
def spec_fuel_score (row : DriveInput) (fuel_weights : Resource → Option ℚ) : ℚ :=
  resourceOrder.foldl
    (fun acc r =>
      if 0 < row.perTank r then acc + (fuel_weights r).getD 0 * row.perTank r
      else acc) 0

/-! ## Dominance relations -/

/-- Python `int(bool)`, used where the code compares booleans numerically. -/
def boolToInt (b : Bool) : ℤ := if b then 1 else 0

/-- `dominates_drive`.  The Python function's early `return False`
statements are rendered as conjuncts; `ge_dims` / `le_dims` / the
`strict_better` accumulation are kept in the code's order.  The
`class_col` parameter is fixed to the `FamilyName` field (its default;
the columns are always present in the feature rows). -/
def dominates_drive (a b : DriveFeat) (care_backup ignore_intraclass : Bool) : Bool :=
  -- optional intra-family veto
  !(ignore_intraclass && (a.family == b.family)) &&
  -- scarce-propellant veto
  !(a.scarce && !b.scarce) &&
  -- backup-power veto (only when care_backup)
  !(care_backup && (!a.idle_backup && b.idle_backup)) &&
  -- ge_dims (with the backup dimension appended when care_backup)
  (decide (b.thrust ≤ a.thrust) && decide (b.ev ≤ a.ev) && decide (b.eff ≤ a.eff) &&
    (!care_backup || decide (boolToInt b.idle_backup ≤ boolToInt a.idle_backup))) &&
  -- le_dims
  decide (a.mass ≤ b.mass) &&
  -- strict_better
  (decide (b.thrust < a.thrust) || decide (b.ev < a.ev) || decide (b.eff < a.eff) ||
    decide (a.mass < b.mass) ||
    (care_backup && (a.idle_backup && !b.idle_backup)) ||
    (!a.scarce && b.scarce))

/-- `dominates_pp`. -/
def dominates_pp (a b : PPFeat) (care_crew : Bool) : Bool :=
  -- ge_dims
  (decide (b.max_output ≤ a.max_output) && decide (b.eff ≤ a.eff) &&
    decide (boolToInt b.general_use ≤ boolToInt a.general_use)) &&
  -- le_dims (with crew appended when care_crew)
  (decide (a.spec_power ≤ b.spec_power) && (!care_crew || decide (a.crew ≤ b.crew))) &&
  -- strict_better
  (decide (b.max_output < a.max_output) || decide (b.eff < a.eff) ||
    decide (a.spec_power < b.spec_power) ||
    decide (boolToInt b.general_use < boolToInt a.general_use) ||
    (care_crew && decide (a.crew < b.crew)))

/-- A float value that may be `inf`: the `Power Ratio (PP/Drive)` column is
set to `float("inf")` when the drive draws no power but the plant produces
some.  Comparisons follow IEEE: `inf` compares greater-or-equal to
everything and strictly greater than every finite value. -/
inductive RatInf where
  | fin (q : ℚ)
  | top
  deriving DecidableEq, Inhabited

/-- `<=` on possibly-infinite values (IEEE semantics, no NaN). -/
def RatInf.ble : RatInf → RatInf → Bool
  | _, .top => true
  | .top, .fin _ => false
  | .fin p, .fin q => decide (p ≤ q)

/-- `<` on possibly-infinite values (IEEE semantics, no NaN). -/
def RatInf.blt : RatInf → RatInf → Bool
  | .top, _ => false
  | .fin _, .top => true
  | .fin p, .fin q => decide (p < q)

/-- The five columns `combo_dominates` extracts with `get_val` (the columns
are always present in builder output; NaN does not arise from the exact
arithmetic modelled here, so `get_val` is a plain field access). -/
structure ComboPerf where
  dv : ℚ
  ac : ℚ
  ac2 : ℚ
  power_quot : RatInf
  cost : ℚ
  deriving DecidableEq, Inhabited

/-- `combo_dominates`. -/
def combo_dominates (a b : ComboPerf) : Bool :=
  -- ge_dims
  (decide (b.dv ≤ a.dv) && decide (b.ac ≤ a.ac) && decide (b.ac2 ≤ a.ac2) &&
    RatInf.ble b.power_quot a.power_quot) &&
  -- le_dims
  decide (a.cost ≤ b.cost) &&
  -- strict_better
  (decide (b.dv < a.dv) || decide (b.ac < a.ac) || decide (b.ac2 < a.ac2) ||
    RatInf.blt b.power_quot a.power_quot || decide (a.cost < b.cost))

/-! ## The all-pairs annotator (`annotate_drive_obsolescence`)

The Python double loop sets, for every pair `i ≠ j` with
`dominates_drive(row_j, row_i)`: `obsolete[i] = True`, appends `row_j`'s
name to `dominated_by[i]`, and increments `dominates_count[j]`.  The three
tallies are expressed directly as scans over the index range. -/

/-- The `Obsolete` flag of row `i`. -/
def drive_obsolete_flag (feat : List DriveFeat) (care_backup ignore_intraclass : Bool)
    (i : ℕ) : Bool :=
  (List.range feat.length).any
    (fun j => decide (j ≠ i) && dominates_drive feat[j]! feat[i]! care_backup ignore_intraclass)

/-- The `Dominates (count)` column of row `j`. -/
def drive_dominates_count (feat : List DriveFeat) (care_backup ignore_intraclass : Bool)
    (j : ℕ) : ℕ :=
  ((List.range feat.length).filter
    (fun i => decide (i ≠ j) && dominates_drive feat[j]! feat[i]! care_backup ignore_intraclass)).length

/-- The `Dominated By` name list of row `i` (dominators in row order). -/
def drive_dominated_by (feat : List DriveFeat) (care_backup ignore_intraclass : Bool)
    (i : ℕ) : List String :=
  ((List.range feat.length).filter
    (fun j => decide (j ≠ i) && dominates_drive feat[j]! feat[i]! care_backup ignore_intraclass)).map
    (fun j => feat[j]!.name)

/-- `annotate_drive_obsolescence`: each row with its obsolete flag,
dominates-count and dominator names.  (The `Domination Efficiency` column,
a display-only derived quotient, is not modelled.) -/
def annotate_drive_obsolescence (feat : List DriveFeat)
    (care_backup ignore_intraclass : Bool) : List (DriveFeat × Bool × ℕ × List String) :=
  (List.range feat.length).map
    (fun i => (feat[i]!,
      drive_obsolete_flag feat care_backup ignore_intraclass i,
      drive_dominates_count feat care_backup ignore_intraclass i,
      drive_dominated_by feat care_backup ignore_intraclass i))

/-! ## Combination builder (`build_valid_drive_pp_combos`) -/

/-- One emitted combo row.  All columns of the Python dict are carried
except `Ref Delta-v (km/s)`, the single float the code computes with
`math.log`; that column is modelled by the real-valued function
`comboDeltaV` below, applied to the emitted row (`Total Wet Mass (tons)`
duplicates `Ref Wet Mass (tons)` in the code and is likewise represented
once). -/
structure ComboRow where
  drive : String
  drive_propellant : String
  thrust : ℚ
  thrust_cap : ℚ
  ev : ℚ
  drive_power : ℚ
  drive_mass : ℚ
  fuel_score : ℚ
  req_pp_raw : String
  pp : String
  pp_cls : String
  pp_max_output : ℚ
  pp_spec : ℚ
  pp_output_used : ℚ
  reactor_mass : ℚ
  ref_payload : ℚ
  ref_propellant : ℚ
  dry_mass : ℚ
  wet_mass : ℚ
  accel_cruise : ℚ
  accel_combat : ℚ
  power_quot : RatInf
  enough_power : Bool
  deriving DecidableEq, Inhabited

/-- The row `build_valid_drive_pp_combos` emits for a compatible pair
`(d, p)`, or `none` when the pair is dropped (zero-output plant with a
power-drawing drive). -/
def build_combo_row (d : DriveFeat) (p : PPFeat)
    (ref_payload_tons ref_propellant_tons : ℚ) : Option ComboRow :=
  if p.max_output ≤ 0 && decide (0 < d.power) then none
  else
    let power_quot : RatInf :=
      if 0 < d.power then .fin (p.max_output / d.power)
      else if 0 < p.max_output then .top else .fin 0
    let enough_power := if 0 < d.power then decide (d.power ≤ p.max_output) else true
    let pp_output_used := if 0 < d.power then min d.power p.max_output else 0
    let reactor_mass := pp_output_used * p.spec_power
    let dry_mass := ref_payload_tons + d.mass + reactor_mass
    let wet_mass := dry_mass + ref_propellant_tons
    let accel_cruise := if 0 < wet_mass then d.thrust / (wet_mass * 1000 * (981/100)) else 0
    let accel_combat :=
      if 0 < wet_mass then d.thrust * d.thrust_cap / (wet_mass * 1000 * (981/100)) else 0
    some
      { drive := d.name
        drive_propellant := d.propellant
        thrust := d.thrust
        thrust_cap := d.thrust_cap
        ev := d.ev
        drive_power := d.power
        drive_mass := d.mass
        fuel_score := d.exp_score
        req_pp_raw := d.req_pp
        pp := p.name
        pp_cls := p.cls
        pp_max_output := p.max_output
        pp_spec := p.spec_power
        pp_output_used := pp_output_used
        reactor_mass := reactor_mass
        ref_payload := ref_payload_tons
        ref_propellant := ref_propellant_tons
        dry_mass := dry_mass
        wet_mass := wet_mass
        accel_cruise := accel_cruise
        accel_combat := accel_combat
        power_quot := power_quot
        enough_power := enough_power }

/-- `build_valid_drive_pp_combos`: filter out obsolete rows on both sides,
cross-join, keep compatible pairs, drop zero-output/positive-draw pairs,
emit derived metrics.  (The code's early returns for `None` / empty inputs
produce the empty frame, which the nested loop does as well.) -/
def build_valid_drive_pp_combos (drive_feat : List DriveFeat) (pp_feat : List PPFeat)
    (ref_payload_tons ref_propellant_tons : ℚ) : List ComboRow :=
  let valid_drives := drive_feat.filter (fun d => !d.obsolete)
  let valid_plants := pp_feat.filter (fun p => !p.obsolete)
  valid_drives.flatMap (fun d =>
    valid_plants.filterMap (fun p =>
      if drive_compatible_with_pp d p then
        build_combo_row d p ref_payload_tons ref_propellant_tons
      else none))

/-- The `Ref Delta-v (km/s)` column of an emitted row:
`ev * log(wet/dry)` when `ev > 0` and `wet > dry > 0`, else `0`. -/
noncomputable def comboDeltaV (c : ComboRow) : ℝ :=
  if 0 < c.ev ∧ c.dry_mass < c.wet_mass ∧ 0 < c.dry_mass then
    (c.ev : ℝ) * Real.log ((c.wet_mass : ℝ) / (c.dry_mass : ℝ))
  else 0

/-! ## Mission feasibility solver (`mission_feasibility_search`)

The solver mixes exact arithmetic with `math.exp`, so it is modelled over
`ℝ`.  In `ℝ` the `OverflowError` handler and the `math.isfinite` check of
the code are vacuous (`Real.exp` is always finite); the `mass_ratio <= 1`
rejection is kept.  Division by zero is total in Lean (`x / 0 = 0`), which
matches the code's behaviour on every path the results can take (a zero
denominator can only fail the subsequent positivity checks). -/

/-- One input row of the solver: the columns the search reads from a combo
dataframe row (`row.get(col, default)`). -/
structure SolverCombo where
  drive : String
  pp : String
  enough_power : Bool
  thrust : ℝ
  thrust_cap : ℝ
  ev : ℝ
  drive_mass : ℝ
  reactor_mass : ℝ

/-- One result row of the solver. -/
structure MissionResult where
  drive : String
  pp : String
  payload : ℝ
  prop : ℝ
  dv : ℝ
  accel : ℝ
  additional_payload : ℝ

/-- `use_combat`: true when `accel_type` is empty (Python falsy) or its
lowercase form starts with `"combat"`. -/
def missionUseCombat (accel_type : String) : Bool :=
  if accel_type.data.isEmpty then true
  else startsWithL (accel_type.data.map Char.toLower)
    ('c' :: 'o' :: 'm' :: 'b' :: 'a' :: 't' :: [])

/-- The loop local `m0 = drive_mass + reactor_mass`. -/
noncomputable def mission_m0 (row : SolverCombo) : ℝ := row.drive_mass + row.reactor_mass

/-- The loop local `t_eff` (effective thrust for the selected regime). -/
noncomputable def mission_t_eff (use_combat : Bool) (row : SolverCombo) : ℝ :=
  if use_combat then row.thrust * row.thrust_cap else row.thrust

/-- The loop local `mass_ratio = exp(dv_target / ev)`. -/
noncomputable def mission_mass_ratio (dv_target_kps : ℝ) (row : SolverCombo) : ℝ :=
  Real.exp (dv_target_kps / row.ev)

/-- The loop local `m_wet_max_accel = t_eff / (a_target * 1000 * 9.81)`. -/
noncomputable def mission_m_wet_max_accel (accel_target_g : ℝ) (use_combat : Bool)
    (row : SolverCombo) : ℝ :=
  mission_t_eff use_combat row / (accel_target_g * 1000 * (981/100))

/-- The loop local `mp_max_accel`. -/
noncomputable def mission_mp_max_accel (dv_target_kps accel_target_g : ℝ)
    (use_combat : Bool) (row : SolverCombo) : ℝ :=
  mission_m_wet_max_accel accel_target_g use_combat row /
    mission_mass_ratio dv_target_kps row - mission_m0 row

/-- The loop local `mp_max_prop` (falls back to `mp_max_accel` when
`prop_max ≤ 0`). -/
noncomputable def mission_mp_max_prop (dv_target_kps accel_target_g : ℝ)
    (use_combat : Bool) (prop_max : ℝ) (row : SolverCombo) : ℝ :=
  if 0 < prop_max then
    prop_max / (mission_mass_ratio dv_target_kps row - 1) - mission_m0 row
  else mission_mp_max_accel dv_target_kps accel_target_g use_combat row

/-- The loop local `mp_max_feasible`. -/
noncomputable def mission_mp_max_feasible (dv_target_kps accel_target_g : ℝ)
    (use_combat : Bool) (prop_max : ℝ) (row : SolverCombo) : ℝ :=
  min (mission_mp_max_accel dv_target_kps accel_target_g use_combat row)
    (mission_mp_max_prop dv_target_kps accel_target_g use_combat prop_max row)

/-- The loop local `prop_sol = (m0 + payload_sol) * (mass_ratio - 1)`
(with `payload_sol = payload_min`). -/
noncomputable def mission_prop_sol (dv_target_kps payload_min : ℝ)
    (row : SolverCombo) : ℝ :=
  (mission_m0 row + payload_min) * (mission_mass_ratio dv_target_kps row - 1)

/-- The loop local `m_wet = m0 + payload_sol + prop_sol`. -/
noncomputable def mission_m_wet (dv_target_kps payload_min : ℝ) (row : SolverCombo) : ℝ :=
  mission_m0 row + payload_min + mission_prop_sol dv_target_kps payload_min row

/-- The loop local `accel_sol = t_eff / (m_wet * 1000 * 9.81)`. -/
noncomputable def mission_accel_sol (dv_target_kps accel_target_g : ℝ)
    (use_combat : Bool) (payload_min : ℝ) (row : SolverCombo) : ℝ :=
  mission_t_eff use_combat row /
    (mission_m_wet dv_target_kps payload_min row * 1000 * (981/100))

/-- The per-row body of `mission_feasibility_search`'s loop: `none` models
`continue`, `some` an appended result row.  The loop locals are the
`mission_*` definitions above.  Parameters are the post-swap bounds
(`payload_max` and the two `*_steps` grid parameters are unused by the
analytic solve, exactly as in the code).  The code's `OverflowError`
handler and `math.isfinite` check are vacuous over `ℝ` where `exp` is
always finite; the `mass_ratio <= 1` rejection is kept. -/
noncomputable def solve_combo_row (dv_target_kps accel_target_g : ℝ) (use_combat : Bool)
    (payload_min prop_min prop_max : ℝ) (row : SolverCombo) : Option MissionResult :=
  if !row.enough_power then none
  else if row.thrust ≤ 0 then none
  else if row.ev ≤ 0 then none
  else if mission_t_eff use_combat row ≤ 0 then none
  else if mission_mass_ratio dv_target_kps row ≤ 1 then none
  else if mission_m_wet_max_accel accel_target_g use_combat row ≤ 0 then none
  else if mission_mp_max_feasible dv_target_kps accel_target_g use_combat prop_max row
      < payload_min then none
  else if mission_prop_sol dv_target_kps payload_min row < prop_min ∨
      prop_max < mission_prop_sol dv_target_kps payload_min row then none
  else if mission_accel_sol dv_target_kps accel_target_g use_combat payload_min row
      < accel_target_g then none
  else
    some
      { drive := row.drive
        pp := row.pp
        payload := payload_min
        prop := mission_prop_sol dv_target_kps payload_min row
        dv := dv_target_kps
        accel := mission_accel_sol dv_target_kps accel_target_g use_combat payload_min row
        additional_payload :=
          max (mission_mp_max_feasible dv_target_kps accel_target_g use_combat prop_max row
            - payload_min) 0 }

/-- `mission_feasibility_search`.  The unused grid parameters
`payload_steps` / `prop_steps` are kept in the signature for fidelity. -/
noncomputable def mission_feasibility_search (combos : List SolverCombo)
    (dv_target_kps accel_target_g : ℝ) (accel_type : String)
    (payload_min payload_max : ℝ) (payload_steps : ℕ)
    (prop_min prop_max : ℝ) (prop_steps : ℕ) : List MissionResult :=
  if combos.isEmpty then []
  else if dv_target_kps ≤ 0 ∨ accel_target_g ≤ 0 then []
  else
    let pmin := if payload_max < payload_min then payload_max else payload_min
    let qmin := if prop_max < prop_min then prop_max else prop_min
    let qmax := if prop_max < prop_min then prop_min else prop_max
    combos.filterMap
      (solve_combo_row dv_target_kps accel_target_g (missionUseCombat accel_type)
        pmin qmin qmax)

/-! ## Concrete fixtures

Small concrete catalogs used to exhibit counterexamples and to exercise the
general theorems on explicit inputs. -/

/-- A drive requiring reactor class tag `any_general`. -/
def drive_any_general : DriveFeat :=
  { name := "GenDrive", family := "F1", thrust := 1000, thrust_cap := 1, ev := 50,
    eff := 1, mass := 5, power := 1/40, propellant := "Water", backup_mode := "Never",
    idle_backup := false, scarce := false, req_pp := "any_general", exp_score := 0,
    obsolete := false }

/-- A fusion-class reactor. -/
def plant_fusion : PPFeat :=
  { name := "FusReactor", cls := "fusion", max_output := 1, spec_power := 2, eff := 1,
    crew := 0, general_use := true, obsolete := false }

/-- The section-8 scenario drive: thrust 1000 N, Ev 50 km/s, mass 5 t,
derived power 0.025 GW. -/
def drive_x : DriveFeat :=
  { name := "Drive X", family := "FX", thrust := 1000, thrust_cap := 1, ev := 50,
    eff := 1, mass := 5, power := 1/40, propellant := "Water", backup_mode := "Never",
    idle_backup := false, scarce := false, req_pp := "Any Reactor", exp_score := 0,
    obsolete := false }

/-- The section-8 scenario reactor: max output 1 GW, specific power 2 t/GW. -/
def reactor_y : PPFeat :=
  { name := "Reactor Y", cls := "Fusion", max_output := 1, spec_power := 2, eff := 1,
    crew := 0, general_use := true, obsolete := false }

/-- The row the builder emits for the section-8 scenario with reference
masses 1000 t / 1000 t. -/
def combo_xy : ComboRow :=
  { drive := "Drive X", drive_propellant := "Water", thrust := 1000, thrust_cap := 1,
    ev := 50, drive_power := 1/40, drive_mass := 5, fuel_score := 0,
    req_pp_raw := "Any Reactor", pp := "Reactor Y", pp_cls := "Fusion",
    pp_max_output := 1, pp_spec := 2, pp_output_used := 1/40, reactor_mass := 1/20,
    ref_payload := 1000, ref_propellant := 1000, dry_mass := 20101/20,
    wet_mass := 40101/20, accel_cruise := 2000/39339081, accel_combat := 2000/39339081,
    power_quot := .fin 40, enough_power := true }

/-- A catalog row whose only propellant resource is one unit of water. -/
def water_row : DriveInput :=
  { display_name := "W", family := "F", thrust := 1, ev := 1, eff := 1, mass := 1,
    thrust_cap := 1, propellant := "Water",
    perTank := fun r => if r = .water then 1 else 0,
    backup_raw := "Never", req_pp_raw := "" }

/-- Fuel weights giving water weight 1 and supplying no other weight. -/
def water_weights : Resource → Option ℚ :=
  fun r => if r = .water then some 1 else none

/-- A scarce-propellant drive. -/
def drive_scarce : DriveFeat :=
  { name := "Scarce Drive", family := "FS", thrust := 1000, thrust_cap := 1, ev := 50,
    eff := 1, mass := 5, power := 1/40, propellant := "Exotics", backup_mode := "Never",
    idle_backup := false, scarce := true, req_pp := "Any Reactor", exp_score := 0,
    obsolete := false }

/-- An otherwise identical non-scarce drive. -/
def drive_clean : DriveFeat :=
  { name := "Clean Drive", family := "FN", thrust := 1000, thrust_cap := 1, ev := 50,
    eff := 1, mass := 5, power := 1/40, propellant := "Water", backup_mode := "Never",
    idle_backup := false, scarce := false, req_pp := "Any Reactor", exp_score := 0,
    obsolete := false }

/-- A powered combo row for the solver. -/
def mission_combo : SolverCombo :=
  { drive := "Drive W", pp := "Reactor W", enough_power := true, thrust := 1000000000,
    thrust_cap := 1, ev := 1, drive_mass := 1, reactor_mass := 1 }

/-- The result row the solver reports for `mission_combo` at target delta-v
1 km/s, target accel 1 g, combat regime, payload_min 100 t, propellant
bounds [0, 20000] t. -/
noncomputable def mission_result : MissionResult :=
  { drive := "Drive W", pp := "Reactor W", payload := 100,
    prop := mission_prop_sol 1 100 mission_combo, dv := 1,
    accel := mission_accel_sol 1 1 true 100 mission_combo,
    additional_payload := max (mission_mp_max_feasible 1 1 true 20000 mission_combo - 100) 0 }


/-! ## Helper lemmas -/

/-- Unpack a successful `build_combo_row`: the pair was not dropped, and
every emitted column has its defining value. -/
lemma build_combo_row_elim {d : DriveFeat} {p : PPFeat} {rp rq : ℚ} {c : ComboRow}
    (h : build_combo_row d p rp rq = some c) :
    ¬(p.max_output ≤ 0 ∧ 0 < d.power) ∧
    c.req_pp_raw = d.req_pp ∧ c.pp_cls = p.cls ∧
    c.pp_max_output = p.max_output ∧ c.drive_power = d.power ∧
    c.pp_spec = p.spec_power ∧ c.drive_mass = d.mass ∧ c.thrust = d.thrust ∧
    c.thrust_cap = d.thrust_cap ∧ c.ev = d.ev ∧
    c.ref_payload = rp ∧ c.ref_propellant = rq ∧
    c.pp_output_used = (if 0 < d.power then min d.power p.max_output else 0) ∧
    c.reactor_mass = c.pp_output_used * p.spec_power ∧
    c.dry_mass = rp + d.mass + c.reactor_mass ∧
    c.wet_mass = c.dry_mass + rq ∧
    c.accel_cruise = (if 0 < c.wet_mass then d.thrust / (c.wet_mass * 1000 * (981/100)) else 0) ∧
    c.accel_combat =
      (if 0 < c.wet_mass then d.thrust * d.thrust_cap / (c.wet_mass * 1000 * (981/100)) else 0) := by
  unfold build_combo_row at h
  split at h
  · exact absurd h (by simp)
  · next hdrop =>
    injection h with h
    subst h
    refine ⟨?_, rfl, rfl, rfl, rfl, rfl, rfl, rfl, rfl, rfl, rfl, rfl, rfl, rfl, rfl, rfl,
      rfl, rfl⟩
    intro ⟨h1, h2⟩
    exact hdrop (by simp [h1, h2])

/-- Every emitted combo comes from a non-obsolete compatible pair. -/
lemma mem_build_elim {drives : List DriveFeat} {pps : List PPFeat} {rp rq : ℚ} {c : ComboRow}
    (h : c ∈ build_valid_drive_pp_combos drives pps rp rq) :
    ∃ d ∈ drives, ∃ p ∈ pps,
      d.obsolete = false ∧ p.obsolete = false ∧
      drive_compatible_with_pp d p = true ∧ build_combo_row d p rp rq = some c := by
  unfold build_valid_drive_pp_combos at h
  simp only [List.mem_flatMap, List.mem_filterMap, List.mem_filter] at h
  obtain ⟨d, ⟨hd, hdo⟩, p, ⟨hp, hpo⟩, hsome⟩ := h
  split at hsome
  · next hcompat => exact ⟨d, hd, p, hp, by simpa using hdo, by simpa using hpo, hcompat, hsome⟩
  · exact absurd hsome (by simp)

/-- The code's compatibility test is exactly `code_class_match` on the raw
tag and class strings. -/
lemma compat_eq_code_class_match (d : DriveFeat) (p : PPFeat) :
    drive_compatible_with_pp d p = code_class_match d.req_pp p.cls := by
  unfold drive_compatible_with_pp code_class_match
  dsimp only
  split_ifs with h1 h2 h3 h4 h5 <;> try rfl
  · simp [h5]
  · simp only [Bool.not_eq_true] at h5
    simp [h5]

/-- The emitted row and its membership for the section-8 scenario. -/
lemma build_xy_eq :
    build_valid_drive_pp_combos [drive_x] [reactor_y] 1000 1000 = [combo_xy] := by
  with_unfolding_all rfl

/-- `combo_xy` is in the builder output for the scenario catalogs. -/
lemma combo_xy_mem :
    combo_xy ∈ build_valid_drive_pp_combos [drive_x] [reactor_y] 1000 1000 := by
  rw [build_xy_eq]
  exact List.mem_singleton_self _

/-- The code's fuel-score fold is ten times the spec's fold, for any prefix
of the resource scan and proportional accumulators. -/
lemma fuel_fold_ratio (row : DriveInput) (fw : Resource → Option ℚ)
    (l : List Resource) (a b : ℚ) (hab : a = 10 * b) :
    l.foldl
      (fun acc r =>
        if 0 < row.perTank r then
          match fw r with
          | some w => acc + w * (row.perTank r * 10)
          | none => acc
        else acc) a =
    10 * l.foldl
      (fun acc r =>
        if 0 < row.perTank r then acc + (fw r).getD 0 * row.perTank r else acc) b := by
  induction l generalizing a b with
  | nil => simpa using hab
  | cons r t ih =>
    simp only [List.foldl_cons]
    apply ih
    by_cases hp : 0 < row.perTank r
    · rw [if_pos hp, if_pos hp]
      cases hfw : fw r with
      | some w => simp only [Option.getD_some]; rw [hab]; ring
      | none => simp only [Option.getD_none]; rw [hab]; ring
    · rw [if_neg hp, if_neg hp]; exact hab

/-! ## Claim theorems: compatibility and the combination builder -/

/-- Claim C1, counterexample: the builder emits the pair of a drive with
required tag `any_general` and a reactor of class `fusion`, although the
spec rule says a tag of the form `any_<suffix>` matches exactly those
classes containing the suffix (`fusion` does not contain `general`). -/
theorem build_combos_spec_match_cex :
    ¬ (∀ (drives : List DriveFeat) (pps : List PPFeat) (rp rq : ℚ),
        ∀ c ∈ build_valid_drive_pp_combos drives pps rp rq,
          spec_class_match c.req_pp_raw c.pp_cls = true) := by
  intro h
  have hall : (build_valid_drive_pp_combos [drive_any_general] [plant_fusion] 1000 1000).all
      (fun c => spec_class_match c.req_pp_raw c.pp_cls) = true := by
    rw [List.all_eq_true]
    intro c hc
    exact h _ _ _ _ c hc
  exact absurd hall (by decide)

/-- Claim C1 (amended): every pair `build_valid_drive_pp_combos` emits
satisfies the class-matching rule the code implements — the spec's rule
with the four sentinel tags `any`, `any_general`, `any_reactor`,
`any_power_plant` additionally matching everything. -/
theorem build_combos_code_match (drives : List DriveFeat) (pps : List PPFeat)
    (rp rq : ℚ) (c : ComboRow) (h : c ∈ build_valid_drive_pp_combos drives pps rp rq) :
    code_class_match c.req_pp_raw c.pp_cls = true := by
  obtain ⟨d, _, p, _, _, _, hcompat, hrow⟩ := mem_build_elim h
  obtain ⟨_, hreq, hcls, _⟩ := build_combo_row_elim hrow
  rw [hreq, hcls, ← compat_eq_code_class_match d p]
  exact hcompat

/-- Witness for C1's amended theorem at the section-8 scenario pair. -/
theorem build_combos_code_match_wit :
    code_class_match combo_xy.req_pp_raw combo_xy.pp_cls = true :=
  build_combos_code_match [drive_x] [reactor_y] 1000 1000 combo_xy combo_xy_mem

/-- Claim C2, counterexample: for a drive with one unit of water propellant
and water weight 1, the feature builder's expensive-fuel score is 10, not
the spec's weighted sum 1 (the code scales each mass fraction by the
display factor 10). -/
theorem fuel_score_cex :
    ¬ (∀ (row : DriveInput) (ab : Resource → Bool) (fw : Resource → Option ℚ),
        (build_drive_features row ab fw).exp_score = spec_fuel_score row fw) := by
  intro h
  have hx := h water_row (fun _ => true) water_weights
  rw [show (build_drive_features water_row (fun _ => true) water_weights).exp_score = 10 from by
    with_unfolding_all rfl] at hx
  rw [show spec_fuel_score water_row water_weights = 1 from by
    with_unfolding_all rfl] at hx
  norm_num at hx

/-- Claim C2 (amended): for every drive record the expensive-fuel score the
feature builder computes equals ten times the spec's
Σ (weight × mass fraction) over the resources with positive mass fraction
(each fraction enters scaled by the ×10 display-mass factor). -/
theorem fuel_score_amended (row : DriveInput) (ab : Resource → Bool)
    (fw : Resource → Option ℚ) :
    (build_drive_features row ab fw).exp_score = 10 * spec_fuel_score row fw := by
  show expensive_fuel_score row fw = 10 * spec_fuel_score row fw
  unfold expensive_fuel_score spec_fuel_score
  exact fuel_fold_ratio row fw resourceOrder 0 0 (by norm_num)

/-- Claim C8: no emitted combo pairs a zero-output reactor with a drive
drawing positive power; such pairs are dropped, not flagged. -/
theorem build_combos_no_zero_output (drives : List DriveFeat) (pps : List PPFeat)
    (rp rq : ℚ) (c : ComboRow) (h : c ∈ build_valid_drive_pp_combos drives pps rp rq) :
    ¬ (c.pp_max_output = 0 ∧ 0 < c.drive_power) := by
  obtain ⟨d, _, p, _, _, _, _, hrow⟩ := mem_build_elim h
  obtain ⟨hdrop, _, _, hmax, hpow, _⟩ := build_combo_row_elim hrow
  intro ⟨h0, hplus⟩
  exact hdrop ⟨le_of_eq (by rw [← hmax, h0]), by rwa [← hpow]⟩

/-- Witness for C8 at the section-8 scenario pair. -/
theorem build_combos_no_zero_output_wit :
    ¬ (combo_xy.pp_max_output = 0 ∧ 0 < combo_xy.drive_power) :=
  build_combos_no_zero_output [drive_x] [reactor_y] 1000 1000 combo_xy combo_xy_mem

/-- Claim C5: every emitted combo's derived metrics obey the section-3
formulas — reactor-mass-used = specific power × min(drive power, max
output); dry = payload + drive mass + reactor mass; wet = dry +
propellant; delta-v = Ev × ln(wet/dry) (0 when Ev ≤ 0); cruise accel =
thrust / (wet kg × 9.81); combat accel = cruise × combat multiplier —
under the data model's sign constraints (nonnegative power, output,
specific power and drive mass; positive reference masses). -/
theorem combo_metrics_exact (drives : List DriveFeat) (pps : List PPFeat)
    (rp rq : ℚ) (c : ComboRow) (h : c ∈ build_valid_drive_pp_combos drives pps rp rq)
    (hpow : 0 ≤ c.drive_power) (hmax : 0 ≤ c.pp_max_output) (hspec : 0 ≤ c.pp_spec)
    (hdm : 0 ≤ c.drive_mass) (hrp : 0 < rp) (hrq : 0 < rq) :
    c.reactor_mass = c.pp_spec * min c.drive_power c.pp_max_output ∧
    c.dry_mass = rp + c.drive_mass + c.reactor_mass ∧
    c.wet_mass = c.dry_mass + rq ∧
    comboDeltaV c =
      (if 0 < c.ev then (c.ev : ℝ) * Real.log ((c.wet_mass : ℝ) / (c.dry_mass : ℝ)) else 0) ∧
    c.accel_cruise = c.thrust / (c.wet_mass * 1000 * (981/100)) ∧
    c.accel_combat = c.accel_cruise * c.thrust_cap := by
  obtain ⟨d, _, p, _, _, _, _, hrow⟩ := mem_build_elim h
  obtain ⟨hdrop, _, _, hmax', hpow', hspec', hdm', hthr', hcap', hev', hrp', hrq',
    hused, hrm, hdry, hwet, hcru, hcom⟩ := build_combo_row_elim hrow
  rw [hpow'] at hpow
  rw [hmax'] at hmax
  have hrm_nonneg : 0 ≤ c.reactor_mass := by
    rw [hrm, hused]
    by_cases hp : 0 < d.power
    · rw [if_pos hp]
      exact mul_nonneg (le_min hpow hmax) (hspec' ▸ hspec)
    · rw [if_neg hp, zero_mul]
  have hdry_pos : 0 < c.dry_mass := by
    rw [hdry]
    have := hdm' ▸ hdm
    linarith
  have hwet_gt : c.dry_mass < c.wet_mass := by rw [hwet]; linarith
  have hwet_pos : 0 < c.wet_mass := lt_trans hdry_pos hwet_gt
  refine ⟨?_, ?_, ?_, ?_, ?_, ?_⟩
  · rw [hrm, hused, hspec', hpow', hmax']
    by_cases hp : 0 < d.power
    · rw [if_pos hp, mul_comm]
    · rw [if_neg hp]
      have hz : d.power = 0 := le_antisymm (not_lt.1 hp) hpow
      rw [hz, min_eq_left hmax, mul_zero, zero_mul]
  · rw [hdry, hdm']
  · exact hwet
  · by_cases hev : 0 < c.ev
    · rw [comboDeltaV, if_pos ⟨hev, hwet_gt, hdry_pos⟩, if_pos hev]
    · rw [comboDeltaV, if_neg (fun hx => hev hx.1), if_neg hev]
  · rw [hcru, if_pos hwet_pos, hthr']
  · rw [hcom, hcru, if_pos hwet_pos, if_pos hwet_pos, hcap', mul_div_right_comm]

/-- Witness for C5: the section-8 concrete scenario — reactor-mass-used
0.05 t, dry 1005.05 t, wet 2005.05 t, delta-v 50 ln(2005.05/1005.05) km/s
(= 50 ln(40101/20101)), cruise accel 1000/(2005050 × 9.81) g, combat =
cruise × 1. -/
theorem combo_metrics_exact_wit :
    combo_xy.reactor_mass = 1/20 ∧ combo_xy.dry_mass = 20101/20 ∧
    combo_xy.wet_mass = 40101/20 ∧
    comboDeltaV combo_xy = 50 * Real.log ((40101 : ℝ) / 20101) ∧
    combo_xy.accel_cruise = 1000 / (2005050 * (981/100)) ∧
    combo_xy.accel_combat = combo_xy.accel_cruise * 1 := by
  obtain ⟨h1, h2, h3, h4, h5, h6⟩ :=
    combo_metrics_exact [drive_x] [reactor_y] 1000 1000 combo_xy combo_xy_mem
      (by norm_num [combo_xy]) (by norm_num [combo_xy]) (by norm_num [combo_xy])
      (by norm_num [combo_xy]) (by norm_num) (by norm_num)
  refine ⟨?_, ?_, ?_, ?_, ?_, ?_⟩
  · rw [h1]; norm_num [combo_xy]
  · rw [h2]; norm_num [combo_xy]
  · rw [h3, h2]; norm_num [combo_xy]
  · rw [h4]
    have hev : (0:ℚ) < combo_xy.ev := by norm_num [combo_xy]
    rw [if_pos hev]
    have harg : ((combo_xy.wet_mass : ℝ)) / ((combo_xy.dry_mass : ℝ)) = (40101 : ℝ) / 20101 := by
      norm_num [combo_xy]
    rw [harg]
    norm_num [combo_xy]
  · rw [h5]; norm_num [combo_xy]
  · rw [h6]; norm_num [combo_xy]


/-! ## Claim theorems: dominance relations -/

/-- If a drive dominates another, the reverse dominance fails (all the
compared dimensions would have to be equal, leaving no strict improvement
that survives the reverse vetoes). -/
lemma dominates_drive_asymm (a b : DriveFeat) (cb ic : Bool)
    (hab : dominates_drive a b cb ic = true) : dominates_drive b a cb ic = false := by
  rw [← Bool.not_eq_true]
  intro hba
  simp only [dominates_drive, Bool.and_eq_true, Bool.not_eq_true', Bool.and_eq_false_iff,
    Bool.or_eq_true, decide_eq_true_eq, Bool.not_eq_true, Bool.not_eq_false] at hab hba
  obtain ⟨⟨⟨⟨⟨hab1, hab2⟩, hab3⟩, ⟨⟨⟨habth, habev⟩, habef⟩, habbk⟩⟩, habm⟩, habs⟩ := hab
  obtain ⟨⟨⟨⟨⟨hba1, hba2⟩, hba3⟩, ⟨⟨⟨hbath, hbaev⟩, hbaef⟩, hbabk⟩⟩, hbam⟩, hbas⟩ := hba
  rcases habs with ((((hlt | hlt) | hlt) | hlt) | ⟨hcb, habk, hbbk⟩) | ⟨hasf, hbst⟩
  · linarith
  · linarith
  · linarith
  · linarith
  · rcases hba3 with h | h | h
    · rw [hcb] at h; simp at h
    · rw [hbbk] at h; simp at h
    · rw [habk] at h; simp at h
  · rcases hba2 with h | h
    · rw [hbst] at h; simp at h
    · rw [hasf] at h; simp at h

/-- Asymmetry of reactor dominance. -/
lemma dominates_pp_asymm (a b : PPFeat) (cc : Bool)
    (hab : dominates_pp a b cc = true) : dominates_pp b a cc = false := by
  rw [← Bool.not_eq_true]
  intro hba
  simp only [dominates_pp, Bool.and_eq_true, Bool.or_eq_true, decide_eq_true_eq,
    Bool.not_eq_true', Bool.not_eq_true, Bool.not_eq_false] at hab hba
  obtain ⟨⟨⟨⟨habmo, habef⟩, habgu⟩, habsp, habcrew⟩, habs⟩ := hab
  obtain ⟨⟨⟨⟨hbamo, hbaef⟩, hbagu⟩, hbasp, hbacrew⟩, hbas⟩ := hba
  rcases habs with (((hlt | hlt) | hlt) | hlt) | ⟨hcc, hlt⟩
  · linarith
  · linarith
  · linarith
  · linarith
  · rcases hbacrew with h | h
    · rw [hcc] at h; simp at h
    · linarith

/-- Mutually `<=` possibly-infinite values are not strictly ordered. -/
lemma RatInf.blt_eq_false_of_ble {x y : RatInf} (hxy : RatInf.ble x y = true)
    (hyx : RatInf.ble y x = true) : RatInf.blt y x = false := by
  cases x <;> cases y <;> simp_all [RatInf.ble, RatInf.blt]

/-- Asymmetry of combo dominance. -/
lemma combo_dominates_asymm (a b : ComboPerf)
    (hab : combo_dominates a b = true) : combo_dominates b a = false := by
  rw [← Bool.not_eq_true]
  intro hba
  simp only [combo_dominates, Bool.and_eq_true, Bool.or_eq_true, decide_eq_true_eq] at hab hba
  obtain ⟨⟨⟨⟨⟨habdv, habac⟩, habac2⟩, habpr⟩, habcost⟩, habs⟩ := hab
  obtain ⟨⟨⟨⟨⟨hbadv, hbaac⟩, hbaac2⟩, hbapr⟩, hbacost⟩, hbas⟩ := hba
  rcases habs with (((hlt | hlt) | hlt) | hpr) | hlt
  · linarith
  · linarith
  · linarith
  · rw [RatInf.blt_eq_false_of_ble hbapr habpr] at hpr; simp at hpr
  · linarith

/-- Irreflexivity of drive dominance. -/
lemma dominates_drive_irrefl (r : DriveFeat) (cb ic : Bool) :
    dominates_drive r r cb ic = false := by
  cases h : dominates_drive r r cb ic
  · rfl
  · have := dominates_drive_asymm r r cb ic h
    rw [h] at this
    exact this

/-- Irreflexivity of reactor dominance. -/
lemma dominates_pp_irrefl (r : PPFeat) (cc : Bool) : dominates_pp r r cc = false := by
  cases h : dominates_pp r r cc
  · rfl
  · have := dominates_pp_asymm r r cc h
    rw [h] at this
    exact this

/-- Irreflexivity of combo dominance. -/
lemma combo_dominates_irrefl (r : ComboPerf) : combo_dominates r r = false := by
  cases h : combo_dominates r r
  · rfl
  · have := combo_dominates_asymm r r h
    rw [h] at this
    exact this

/-- Claim C4: each of the three dominance relations is irreflexive, and
asymmetric under every configuration of the veto flags — no record
dominates itself, and no two records ever dominate each other. -/
theorem dominance_irrefl_and_asymm :
    (∀ (r : DriveFeat) (cb ic : Bool), dominates_drive r r cb ic = false) ∧
    (∀ (a b : DriveFeat) (cb ic : Bool),
      (dominates_drive a b cb ic && dominates_drive b a cb ic) = false) ∧
    (∀ (r : PPFeat) (cc : Bool), dominates_pp r r cc = false) ∧
    (∀ (a b : PPFeat) (cc : Bool), (dominates_pp a b cc && dominates_pp b a cc) = false) ∧
    (∀ (r : ComboPerf), combo_dominates r r = false) ∧
    (∀ (a b : ComboPerf), (combo_dominates a b && combo_dominates b a) = false) := by
  refine ⟨dominates_drive_irrefl, ?_, dominates_pp_irrefl, ?_, combo_dominates_irrefl, ?_⟩
  · intro a b cb ic
    cases h : dominates_drive a b cb ic
    · rfl
    · rw [dominates_drive_asymm a b cb ic h, Bool.and_false]
  · intro a b cc
    cases h : dominates_pp a b cc
    · rfl
    · rw [dominates_pp_asymm a b cc h, Bool.and_false]
  · intro a b
    cases h : combo_dominates a b
    · rfl
    · rw [combo_dominates_asymm a b h, Bool.and_false]

/-- Claim C6: a scarce-propellant drive never dominates an otherwise
identical non-scarce drive, and the non-scarce one always dominates the
scarce one, for every backup-flag setting, provided the same-class veto is
off or the families differ. -/
theorem scarcity_veto_exact (a b : DriveFeat) (cb ic : Bool)
    (hsc : a.scarce = true) (hns : b.scarce = false)
    (ht : a.thrust = b.thrust) (hev : a.ev = b.ev) (hef : a.eff = b.eff)
    (hm : a.mass = b.mass) (hbk : a.idle_backup = b.idle_backup)
    (hfam : ic = false ∨ a.family ≠ b.family) :
    dominates_drive a b cb ic = false ∧ dominates_drive b a cb ic = true := by
  constructor
  · simp [dominates_drive, hsc, hns]
  · have hveto1 : (ic && (b.family == a.family)) = false := by
      rcases hfam with hic | hne
      · rw [hic, Bool.false_and]
      · rw [beq_eq_false_iff_ne.mpr (Ne.symm hne), Bool.and_false]
    simp [dominates_drive, hveto1, hsc, hns, ht, hev, hef, hm, hbk]

/-- Witness for C6 on two concrete drives differing only in scarcity. -/
theorem scarcity_veto_exact_wit :
    dominates_drive drive_scarce drive_clean true true = false ∧
    dominates_drive drive_clean drive_scarce true true = true :=
  scarcity_veto_exact drive_scarce drive_clean true true rfl rfl rfl rfl rfl rfl rfl
    (Or.inr (by decide))

/-- Raising a drive's thrust preserves every dominance it already had. -/
lemma dominates_drive_thrust_mono {d b : DriveFeat} {cb ic : Bool} {t' : ℚ}
    (ht : d.thrust ≤ t') (h : dominates_drive d b cb ic = true) :
    dominates_drive { d with thrust := t' } b cb ic = true := by
  simp only [dominates_drive, Bool.and_eq_true, Bool.not_eq_true', Bool.and_eq_false_iff,
    Bool.or_eq_true, decide_eq_true_eq, Bool.not_eq_true, Bool.not_eq_false] at h ⊢
  obtain ⟨⟨⟨⟨⟨h1, h2⟩, h3⟩, ⟨⟨⟨hth, hev⟩, hef⟩, hbk⟩⟩, hm⟩, hs⟩ := h
  refine ⟨⟨⟨⟨⟨h1, h2⟩, h3⟩, ⟨⟨⟨le_trans hth ht, hev⟩, hef⟩, hbk⟩⟩, hm⟩, ?_⟩
  rcases hs with ((((hlt | hlt) | hlt) | hlt) | hx) | hx
  · exact Or.inl (Or.inl (Or.inl (Or.inl (Or.inl (lt_of_lt_of_le hlt ht)))))
  · exact Or.inl (Or.inl (Or.inl (Or.inl (Or.inr hlt))))
  · exact Or.inl (Or.inl (Or.inl (Or.inr hlt)))
  · exact Or.inl (Or.inl (Or.inr hlt))
  · exact Or.inl (Or.inr hx)
  · exact Or.inr hx

/-- Replacing row `j` with a record that dominates pointwise at least as
much never lowers row `j`'s dominates-count. -/
lemma drive_count_set_mono (feat : List DriveFeat) (cb ic : Bool) (j : ℕ) (d' : DriveFeat)
    (hj : j < feat.length)
    (hmono : ∀ b, dominates_drive feat[j]! b cb ic = true → dominates_drive d' b cb ic = true) :
    drive_dominates_count feat cb ic j ≤ drive_dominates_count (feat.set j d') cb ic j := by
  unfold drive_dominates_count
  rw [List.length_set, ← List.countP_eq_length_filter, ← List.countP_eq_length_filter]
  apply List.countP_mono_left
  intro i hi hpi
  simp only [Bool.and_eq_true, decide_eq_true_eq] at hpi ⊢
  obtain ⟨hij, hdom⟩ := hpi
  refine ⟨hij, ?_⟩
  have hilt : i < feat.length := List.mem_range.mp hi
  have hjlt : j < (feat.set j d').length := by rwa [List.length_set]
  have hilt2 : i < (feat.set j d').length := by rwa [List.length_set]
  have h1 : (feat.set j d')[j]! = d' := by
    rw [getElem!_pos (feat.set j d') j hjlt, List.getElem_set_self]
  have h2 : (feat.set j d')[i]! = feat[i]! := by
    rw [getElem!_pos (feat.set j d') i hilt2, List.getElem_set_ne (fun hji => hij hji.symm),
      getElem!_pos feat i hilt]
  rw [h1, h2]
  exact hmono _ hdom

/-- Claim C7: within a fixed population and configuration, increasing one
drive's thrust (all other fields fixed) never decreases its
dominates-count as computed by the annotator's scan. -/
theorem drive_count_thrust_mono (feat : List DriveFeat) (cb ic : Bool) (j : ℕ) (t' : ℚ)
    (hj : j < feat.length) (ht : feat[j]!.thrust ≤ t') :
    drive_dominates_count feat cb ic j ≤
      drive_dominates_count (feat.set j { feat[j]! with thrust := t' }) cb ic j :=
  drive_count_set_mono feat cb ic j _ hj (fun _ h => dominates_drive_thrust_mono ht h)

/-- Witness for C7 on a concrete two-drive population. -/
theorem drive_count_thrust_mono_wit :
    drive_dominates_count [drive_clean, drive_scarce] true true 0 ≤
      drive_dominates_count
        ([drive_clean, drive_scarce].set 0
          { [drive_clean, drive_scarce][0]! with thrust := 2000 }) true true 0 :=
  drive_count_thrust_mono [drive_clean, drive_scarce] true true 0 2000 (by decide)
    (by with_unfolding_all decide)


/-! ## Claim theorems: mission feasibility solver -/

/-- Claim C9: for non-positive target delta-v or acceleration the solver
returns the empty result list (and, being a total function, raises
nothing), for every input combo list. -/
theorem mission_search_nonpositive_targets (combos : List SolverCombo)
    (dv accel : ℝ) (aty : String) (pmin pmax : ℝ) (ps : ℕ) (qmin qmax : ℝ) (qs : ℕ)
    (h : dv ≤ 0 ∨ accel ≤ 0) :
    mission_feasibility_search combos dv accel aty pmin pmax ps qmin qmax qs = [] := by
  unfold mission_feasibility_search
  by_cases hemp : combos.isEmpty = true
  · rw [if_pos hemp]
  · rw [if_neg hemp, if_pos h]

/-- Witness for C9: target delta-v 0 yields no results. -/
theorem mission_search_nonpositive_targets_wit :
    mission_feasibility_search [mission_combo] 0 1 "Combat" 100 300000 30 0 20000 30 = [] :=
  mission_search_nonpositive_targets [mission_combo] 0 1 "Combat" 100 300000 30 0 20000 30
    (Or.inl le_rfl)

/-- A successful per-row solve implies the row passed the enough-power,
positive-thrust and positive-Ev guards. -/
lemma solve_combo_row_flags {dv accel : ℝ} {uc : Bool} {pmin qmin qmax : ℝ}
    {row : SolverCombo} {res : MissionResult}
    (h : solve_combo_row dv accel uc pmin qmin qmax row = some res) :
    row.enough_power = true ∧ 0 < row.thrust ∧ 0 < row.ev := by
  unfold solve_combo_row at h
  split_ifs at h with g1 g2 g3 g4 g5 g6 g7 g8 g9 <;> try (exact Option.noConfusion h)
  refine ⟨?_, not_le.mp g2, not_le.mp g3⟩
  simpa using g1

/-- The numeric content of a successful per-row solve: payload is the
requested minimum, propellant is the closed-form `(m0 + payload)(R − 1)`
within its bounds, and the reported mass budget reproduces the target
delta-v exactly through the Tsiolkovsky relation. -/
lemma solve_combo_row_exact {dv accel : ℝ} {uc : Bool} {pmin qmin qmax : ℝ}
    {row : SolverCombo} {res : MissionResult} (ha : 0 < accel)
    (h : solve_combo_row dv accel uc pmin qmin qmax row = some res) :
    res.payload = pmin ∧
    res.prop = (row.drive_mass + row.reactor_mass + pmin) * (Real.exp (dv / row.ev) - 1) ∧
    qmin ≤ res.prop ∧ res.prop ≤ qmax ∧
    res.dv = dv ∧
    row.ev * Real.log
      ((row.drive_mass + row.reactor_mass + res.payload + res.prop) /
        (row.drive_mass + row.reactor_mass + res.payload)) = dv := by
  have hflags := solve_combo_row_flags h
  have hev : 0 < row.ev := hflags.2.2
  unfold solve_combo_row at h
  split_ifs at h with g1 g2 g3 g4 g5 g6 g7 g8 g9 <;> try (exact Option.noConfusion h)
  injection h with h
  subst h
  push_neg at g8
  have hR : 1 < mission_mass_ratio dv row := not_le.mp g5
  have hR0 : 0 < mission_mass_ratio dv row := lt_trans one_pos hR
  have hteff : 0 < mission_t_eff uc row := not_le.mp g4
  have haccel : accel ≤ mission_accel_sol dv accel uc pmin row := not_lt.mp g9
  have hmwet : 0 < mission_m_wet dv pmin row := by
    by_contra hle
    push_neg at hle
    have hden : mission_m_wet dv pmin row * 1000 * (981/100) ≤ 0 := by nlinarith
    have hnp : mission_accel_sol dv accel uc pmin row ≤ 0 := by
      unfold mission_accel_sol
      rcases lt_or_eq_of_le hden with hlt | heq
      · exact le_of_lt (div_neg_of_pos_of_neg hteff hlt)
      · rw [heq, div_zero]
    linarith
  have hwet_eq : mission_m_wet dv pmin row =
      (mission_m0 row + pmin) * mission_mass_ratio dv row := by
    unfold mission_m_wet mission_prop_sol
    ring
  have hbase : 0 < mission_m0 row + pmin := by
    rw [hwet_eq] at hmwet
    by_contra hb
    push_neg at hb
    nlinarith
  refine ⟨rfl, ?_, g8.1, g8.2, rfl, ?_⟩
  · unfold mission_prop_sol mission_m0 mission_mass_ratio
    ring
  · show row.ev * Real.log
        ((row.drive_mass + row.reactor_mass + pmin + mission_prop_sol dv pmin row) /
          (row.drive_mass + row.reactor_mass + pmin)) = dv
    have hnum : row.drive_mass + row.reactor_mass + pmin + mission_prop_sol dv pmin row =
        (mission_m0 row + pmin) * mission_mass_ratio dv row := by
      unfold mission_prop_sol mission_m0
      ring
    have hden : row.drive_mass + row.reactor_mass + pmin = mission_m0 row + pmin := by
      unfold mission_m0
      ring
    rw [hnum, hden, mul_div_cancel_left₀ _ (ne_of_gt hbase)]
    unfold mission_mass_ratio
    rw [Real.log_exp, mul_comm, div_mul_cancel₀ dv (ne_of_gt hev)]

/-- A successful per-row solve of a member row is reported by the search
(when the bounds are already ordered, so the code's swap is the
identity). -/
lemma mission_search_mem {combos : List SolverCombo} {dv accel : ℝ} {aty : String}
    {pmin pmax : ℝ} {ps : ℕ} {qmin qmax : ℝ} {qs : ℕ} {row : SolverCombo}
    {res : MissionResult}
    (hdv : 0 < dv) (ha : 0 < accel) (hp : pmin ≤ pmax) (hq : qmin ≤ qmax)
    (hrow : row ∈ combos)
    (hres : solve_combo_row dv accel (missionUseCombat aty) pmin qmin qmax row = some res) :
    res ∈ mission_feasibility_search combos dv accel aty pmin pmax ps qmin qmax qs := by
  have hA : ¬ combos.isEmpty = true := by
    rcases combos with _ | ⟨x, xs⟩
    · exact absurd hrow (List.not_mem_nil _)
    · simp
  have hB : ¬ (dv ≤ 0 ∨ accel ≤ 0) := by
    push_neg
    exact ⟨hdv, ha⟩
  unfold mission_feasibility_search
  rw [if_neg hA, if_neg hB]
  dsimp only
  rw [if_neg (not_lt.mpr hp)]
  simp only [if_neg (not_lt.mpr hq)]
  exact List.mem_filterMap.mpr ⟨row, hrow, hres⟩

/-- Claim C3: for every input combo with enough power, positive thrust and
positive exhaust velocity, and every row the search reports for it at
positive targets and ordered bounds: the reported payload is the caller's
minimum payload; the reported propellant equals
`(drive mass + reactor mass + min payload) × (R − 1)` with
`R = exp(dv_target / Ev)` and lies within `[prop_min, prop_max]`; the
reported delta-v is the target; and recomputing
`Ev × ln(wet/dry)` from the reported payload and propellant gives exactly
the target delta-v. -/
theorem mission_search_row_exact (combos : List SolverCombo) (dv accel : ℝ)
    (aty : String) (pmin pmax : ℝ) (ps : ℕ) (qmin qmax : ℝ) (qs : ℕ)
    (row : SolverCombo) (res : MissionResult)
    (hdv : 0 < dv) (ha : 0 < accel) (hp : pmin ≤ pmax) (hq : qmin ≤ qmax)
    (hrow : row ∈ combos)
    (henough : row.enough_power = true) (hthrust : 0 < row.thrust) (hev : 0 < row.ev)
    (hres : solve_combo_row dv accel (missionUseCombat aty) pmin qmin qmax row = some res) :
    res ∈ mission_feasibility_search combos dv accel aty pmin pmax ps qmin qmax qs ∧
    res.payload = pmin ∧
    res.prop = (row.drive_mass + row.reactor_mass + pmin) * (Real.exp (dv / row.ev) - 1) ∧
    qmin ≤ res.prop ∧ res.prop ≤ qmax ∧
    res.dv = dv ∧
    row.ev * Real.log
      ((row.drive_mass + row.reactor_mass + res.payload + res.prop) /
        (row.drive_mass + row.reactor_mass + res.payload)) = dv := by
  obtain ⟨h1, h2, h3, h4, h5, h6⟩ := solve_combo_row_exact ha hres
  exact ⟨mission_search_mem hdv ha hp hq hrow hres, h1, h2, h3, h4, h5, h6⟩

/-- Claim C10: every result row of the search originates from an input
combo whose enough-power flag is true and whose thrust and exhaust
velocity are strictly positive; rows failing any of these are silently
skipped. -/
theorem mission_search_results_from_powered_rows (combos : List SolverCombo)
    (dv accel : ℝ) (aty : String) (pmin pmax : ℝ) (ps : ℕ) (qmin qmax : ℝ) (qs : ℕ)
    (res : MissionResult)
    (h : res ∈ mission_feasibility_search combos dv accel aty pmin pmax ps qmin qmax qs) :
    ∃ row ∈ combos,
      row.enough_power = true ∧ 0 < row.thrust ∧ 0 < row.ev ∧
      solve_combo_row dv accel (missionUseCombat aty)
        (if pmax < pmin then pmax else pmin)
        (if qmax < qmin then qmax else qmin)
        (if qmax < qmin then qmin else qmax) row = some res := by
  unfold mission_feasibility_search at h
  by_cases hemp : combos.isEmpty = true
  · rw [if_pos hemp] at h
    exact absurd h (List.not_mem_nil _)
  · rw [if_neg hemp] at h
    by_cases hg : dv ≤ 0 ∨ accel ≤ 0
    · rw [if_pos hg] at h
      exact absurd h (List.not_mem_nil _)
    · rw [if_neg hg] at h
      dsimp only at h
      obtain ⟨row, hrow, hsolve⟩ := List.mem_filterMap.mp h
      obtain ⟨hf1, hf2, hf3⟩ := solve_combo_row_flags hsolve
      exact ⟨row, hrow, hf1, hf2, hf3, hsolve⟩

/-- `"Combat"` selects the combat regime. -/
lemma missionUseCombat_combat : missionUseCombat "Combat" = true := by decide

/-- The concrete solve used by the solver witnesses: `mission_combo` at
target delta-v 1, accel 1 g, combat regime, payload_min 100, propellant
bounds [0, 20000] produces exactly `mission_result`. -/
lemma mission_solve_eq :
    solve_combo_row 1 1 true 100 0 20000 mission_combo = some mission_result := by
  have he1 : (2.7182818283:ℝ) < Real.exp 1 := Real.exp_one_gt_d9
  have he2 : Real.exp 1 < 2.7182818286 := Real.exp_one_lt_d9
  have hep : (0:ℝ) < Real.exp 1 := Real.exp_pos 1
  have hair : mission_mass_ratio 1 mission_combo = Real.exp 1 := by
    unfold mission_mass_ratio mission_combo
    norm_num
  have hteff : mission_t_eff true mission_combo = 1000000000 := by
    unfold mission_t_eff mission_combo
    norm_num
  have hm0 : mission_m0 mission_combo = 2 := by
    unfold mission_m0 mission_combo
    norm_num
  have hwmax : mission_m_wet_max_accel 1 true mission_combo = 1000000000/9810 := by
    unfold mission_m_wet_max_accel
    rw [hteff]
    norm_num
  have hmpa : mission_mp_max_accel 1 1 true mission_combo
      = 1000000000/9810/Real.exp 1 - 2 := by
    unfold mission_mp_max_accel
    rw [hwmax, hair, hm0]
  have hmpp : mission_mp_max_prop 1 1 true 20000 mission_combo
      = 20000/(Real.exp 1 - 1) - 2 := by
    unfold mission_mp_max_prop
    rw [if_pos (show (0:ℝ) < 20000 by norm_num), hair, hm0]
  have hprop : mission_prop_sol 1 100 mission_combo = 102*(Real.exp 1 - 1) := by
    unfold mission_prop_sol
    rw [hair, hm0]
    ring
  have hmwet : mission_m_wet 1 100 mission_combo = 102*Real.exp 1 := by
    unfold mission_m_wet
    rw [hm0, hprop]
    ring
  have haccel : mission_accel_sol 1 1 true 100 mission_combo
      = 1000000000/(102*Real.exp 1*1000*(981/100)) := by
    unfold mission_accel_sol
    rw [hteff, hmwet]
  unfold solve_combo_row
  rw [if_neg (show ¬(!mission_combo.enough_power) = true by norm_num [mission_combo]),
    if_neg (show ¬mission_combo.thrust ≤ 0 by norm_num [mission_combo]),
    if_neg (show ¬mission_combo.ev ≤ 0 by norm_num [mission_combo]),
    if_neg (show ¬mission_t_eff true mission_combo ≤ 0 by rw [hteff]; norm_num),
    if_neg (show ¬mission_mass_ratio 1 mission_combo ≤ 1 by rw [hair]; linarith),
    if_neg (show ¬mission_m_wet_max_accel 1 true mission_combo ≤ 0 by rw [hwmax]; norm_num)]
  rw [if_neg (show ¬mission_mp_max_feasible 1 1 true 20000 mission_combo < 100 by
    unfold mission_mp_max_feasible
    rw [hmpa, hmpp, not_lt, le_min_iff]
    constructor
    · rw [le_sub_iff_add_le]
      norm_num
      rw [le_div_iff₀ hep]
      nlinarith [he2]
    · rw [le_sub_iff_add_le]
      norm_num
      rw [le_div_iff₀ (show (0:ℝ) < Real.exp 1 - 1 by linarith)]
      nlinarith [he2])]
  rw [if_neg (show ¬(mission_prop_sol 1 100 mission_combo < 0 ∨
      20000 < mission_prop_sol 1 100 mission_combo) by
    rw [hprop, not_or, not_lt, not_lt]
    constructor
    · nlinarith [he1]
    · nlinarith [he2])]
  rw [if_neg (show ¬mission_accel_sol 1 1 true 100 mission_combo < 1 by
    rw [haccel, not_lt, le_div_iff₀ (by positivity)]
    nlinarith [he2])]
  rfl

/-- Witness for C3 on the concrete powered combo. -/
theorem mission_search_row_exact_wit :
    mission_result ∈
      mission_feasibility_search [mission_combo] 1 1 "Combat" 100 300000 30 0 20000 30 ∧
    mission_result.payload = 100 ∧
    mission_result.prop = (mission_combo.drive_mass + mission_combo.reactor_mass + 100) *
      (Real.exp (1 / mission_combo.ev) - 1) ∧
    (0:ℝ) ≤ mission_result.prop ∧ mission_result.prop ≤ 20000 ∧
    mission_result.dv = 1 ∧
    mission_combo.ev * Real.log
      ((mission_combo.drive_mass + mission_combo.reactor_mass + mission_result.payload +
          mission_result.prop) /
        (mission_combo.drive_mass + mission_combo.reactor_mass + mission_result.payload)) = 1 :=
  mission_search_row_exact [mission_combo] 1 1 "Combat" 100 300000 30 0 20000 30
    mission_combo mission_result (by norm_num) (by norm_num) (by norm_num) (by norm_num)
    (List.mem_singleton_self _) rfl (by norm_num [mission_combo]) (by norm_num [mission_combo])
    (by rw [missionUseCombat_combat]; exact mission_solve_eq)

/-- Witness for C10 on the concrete powered combo. -/
theorem mission_search_results_from_powered_rows_wit :
    ∃ row ∈ [mission_combo], row.enough_power = true ∧ 0 < row.thrust ∧ 0 < row.ev ∧
      solve_combo_row 1 1 (missionUseCombat "Combat")
        (if (300000:ℝ) < 100 then (300000:ℝ) else 100)
        (if (20000:ℝ) < 0 then (20000:ℝ) else 0)
        (if (20000:ℝ) < 0 then (0:ℝ) else 20000) row = some mission_result :=
  mission_search_results_from_powered_rows [mission_combo] 1 1 "Combat" 100 300000 30 0 20000 30
    mission_result
    (mission_search_mem (by norm_num) (by norm_num) (by norm_num) (by norm_num)
      (List.mem_singleton_self _) (by rw [missionUseCombat_combat]; exact mission_solve_eq))

end TIPlanner
